import Mathlib

set_option linter.unusedVariables false

/-!
Verification development for the Blog-Gene content-generation pipeline.

Shallow embedding of the pure/control-flow parts of the source:
`utils.py`, `agents/fact_check.py`, `agents/planner.py`, `agents/base.py`,
`agents/editor.py`, `agents/writer.py`, `blog_generator.py`, `admin.py`.
LLM/network calls are abstracted as function parameters (`backend`,
`jsonLoads`, ...); Python dicts are modelled either as ordered association
lists (when iteration order matters) or by their `.get` function
`String → Option α` (when only lookups are observed).
-/

namespace BlogGene

/-- Python `needle in hay` for strings: substring containment. -/
def pyIn (needle hay : String) : Bool :=
  hay.toList.tails.any (fun t => needle.toList.isPrefixOf t)

/-- Worker for `pySplitWs`: accumulate the current word (reversed) and cut
at whitespace. -/
def pySplitWsGo : List Char → List Char → List (List Char)
  | [], acc => if acc.isEmpty then [] else [acc.reverse]
  | c :: rest, acc =>
    if c.isWhitespace then
      if acc.isEmpty then pySplitWsGo rest [] else acc.reverse :: pySplitWsGo rest []
    else pySplitWsGo rest (c :: acc)

/-- Python `str.split()` with no argument: split on whitespace runs,
dropping empty pieces. -/
def pySplitWs (s : String) : List String :=
  (pySplitWsGo s.toList []).map String.mk

/-- Python `str.lower()` (character-wise, ASCII — which covers every string
this repository lower-cases). -/
def pyLower (s : String) : String :=
  String.mk (s.toList.map Char.toLower)

/-- Python `str.strip()` with no argument: remove leading and trailing
whitespace. -/
def pyStrip (s : String) : String :=
  String.mk (((s.toList.dropWhile Char.isWhitespace).reverse.dropWhile
    Char.isWhitespace).reverse)

/-- Python `str.startswith(pre)`. -/
def pyStartsWith (pre s : String) : Bool :=
  pre.toList.isPrefixOf s.toList

/-- Worker for `pySplitOn`: `fuel` is an upper bound on the remaining list
length, consumed one unit per character so the recursion is structural. -/
def pySplitOnGo (sep : List Char) : Nat → List Char → List Char → List (List Char)
  | _, [], acc => [acc.reverse]
  | 0, l, acc => [acc.reverse ++ l]
  | fuel + 1, c :: rest, acc =>
    if !sep.isEmpty && sep.isPrefixOf (c :: rest) then
      acc.reverse :: pySplitOnGo sep fuel (rest.drop (sep.length - 1)) []
    else pySplitOnGo sep fuel rest (c :: acc)

/-- Python `s.split(sep)` for a non-empty separator. -/
def pySplitOn (s sep : String) : List String :=
  (pySplitOnGo sep.toList s.toList.length s.toList []).map String.mk

/-- Python `str.capitalize()`: first character upper-cased, rest lower-cased
(ASCII, which covers every string this repository passes to it). -/
def pyCapitalize (s : String) : String :=
  match s.toList with
  | [] => ""
  | c :: cs => String.mk (c.toUpper :: cs.map Char.toLower)

/-! ## utils.py -/

/-- `utils.sanitize_topic`: keep characters accepted by `isalnum`
(a parameter abstracting Python's Unicode-aware `str.isalnum`) together
with space, hyphen and underscore; drop the rest; then map spaces to
underscores and truncate to `max_length` characters (Python slice
`[:max_length]`). The source's default for `max_length` is 50. -/
def sanitize_topic (isalnum : Char → Bool) (topic : String) (max_length : Nat) : String :=
  let safe_topic := String.mk (topic.toList.filter
    (fun c => isalnum c || c == ' ' || c == '-' || c == '_'))
  String.mk ((safe_topic.toList.map (fun c => if c == ' ' then '_' else c)).take max_length)

/-! ## agents/fact_check.py -/

/-- One value of the `citation_status` dict built by
`FactCheckAgent._verify_claims`: `{"verified": …, "sources": …,
"needs_citation": …}`. -/
structure ClaimStatus where
  verified : Bool
  sources : List (String × String)
  needs_citation : Bool
deriving DecidableEq

/-- `FactCheckAgent._calculate_verification_score`: 1.0 on an empty
status dict, else verified-count / total-count. Floats are modelled as
rationals. -/
def calculate_verification_score (citation_status : List (String × ClaimStatus)) : ℚ :=
  if citation_status.isEmpty then 1
  else
    let verified_count := (citation_status.filter (fun p => p.2.verified)).length
    let total_count := citation_status.length
    if 0 < total_count then (verified_count : ℚ) / (total_count : ℚ) else 1

/-- The fixed note `FactCheckAgent._add_citations` appends. -/
def citation_note : String :=
  "\n\n*Note: Some claims in this section may require additional citations.*"

/-- `FactCheckAgent._add_citations`: for each section (in dict order) it
recomputes `section_claims` — all claims whose status has
`needs_citation` (the source never restricts to the current section) —
and, when that list is non-empty and `require_citations` holds, appends
`citation_note` to the section body. -/
def add_citations (content : List (String × String))
    (citation_status : List (String × ClaimStatus)) (require_citations : Bool) :
    List (String × String) :=
  content.map (fun p =>
    let section_claims :=
      ((citation_status.filter (fun q => q.2.needs_citation)).map (fun q => q.1))
    if !section_claims.isEmpty && require_citations then (p.1, p.2 ++ citation_note) else p)

/-! ## agents/planner.py -/

/-- One `section_goals` entry of a plan. -/
structure SectionGoal where
  learning_objectives : List String
  key_points : List String
  desired_outcome : String
deriving DecidableEq

/-- One `required_facts` entry of a plan. -/
structure RequiredFact where
  fact : String
  type : String
deriving DecidableEq

/-- One entry of a plan's `outline` list. -/
structure OutlineSection where
  section_title : String
  subsections : List String
  description : String
deriving DecidableEq

/-- The plan dictionary produced by `PlannerAgent`. -/
structure Plan where
  angle : String
  thesis : String
  outline : List OutlineSection
  section_goals : List (String × SectionGoal)
  required_facts : List RequiredFact
  search_queries : List String
deriving DecidableEq

/-- The dictionary `PlannerAgent.process` returns on the non-exception path. -/
structure PlannerResult where
  status : String
  plan : Plan
  topic : String
deriving DecidableEq

/-- `PlannerAgent._create_fallback_plan`: the fixed outline used when the
backend's response fails to parse as JSON. (`tone` is accepted but unused,
as in the source.) -/
def create_fallback_plan (topic audience tone : String) : Plan :=
  { angle := "An in-depth exploration of " ++ topic ++ " for " ++ audience
    thesis := "This article examines " ++ topic ++ " and its implications for modern enterprises."
    outline :=
      [ { section_title := "Introduction", subsections := [],
          description := "Introduce the topic and its relevance" },
        { section_title := "Understanding the Core Concepts", subsections := [],
          description := "Explain fundamental concepts" },
        { section_title := "Key Benefits and Applications", subsections := [],
          description := "Discuss practical applications" },
        { section_title := "Best Practices", subsections := [],
          description := "Provide actionable recommendations" },
        { section_title := "Conclusion", subsections := [],
          description := "Summarize key takeaways" } ]
    section_goals := []
    required_facts := []
    search_queries :=
      [topic ++ " statistics", topic ++ " best practices", topic ++ " enterprise"] }

/-- The fenced-code-block unwrapping in `PlannerAgent.process`: if the
response contains a fence, take the text between the first fence markers
and strip it; otherwise leave the response as is. -/
def unwrap_code_fence (response : String) : String :=
  if pyIn "```json" response then
    pyStrip ((pySplitOn ((pySplitOn response "```json").getD 1 "") "```").headD "")
  else if pyIn "```" response then
    pyStrip ((pySplitOn ((pySplitOn response "```").getD 1 "") "```").headD "")
  else response

/-- `PlannerAgent.process` after the backend call returned `response`:
unwrap a possible code fence, try to parse JSON (`jsonLoads` abstracts
Python's `json.loads`, `none` = `JSONDecodeError`), and fall back to the
hard-coded plan on parse failure. Either way the result is a success. -/
def planner_process_postLLM (jsonLoads : String → Option Plan)
    (topic target_audience tone : String) (response : String) : PlannerResult :=
  match jsonLoads (unwrap_code_fence response) with
  | some plan => { status := "success", plan := plan, topic := topic }
  | none =>
    { status := "success", plan := create_fallback_plan topic target_audience tone,
      topic := topic }

/-! ## agents/base.py — `call_llm` -/

/-- A Python exception as `call_llm` observes it: `str(e)` and
`type(e).__name__`. -/
structure PyError where
  msg : String
  typeName : String
deriving DecidableEq

/-- The distinct raise sites of `BaseAgent.call_llm`, each with the message
it raises. `sslError` and `connectionFailed` are `ConnectionError` in
Python, `authError` is `ValueError`, `quotaError`/`otherError`/`exhausted`
are `RuntimeError`; the message templates are pairwise distinct. -/
inductive LlmError where
  | sslError (message : String)
  | connectionFailed (message : String)
  | authError (message : String)
  | quotaError (message : String)
  | otherError (message : String)
  | exhausted (message : String)
deriving DecidableEq

/-- The SSL-certificate branch test: `"ssl" in error_msg or "certificate"
in error_msg or "certificate_verify_failed" in error_msg` over the
lower-cased message. -/
def ssl_match (e : PyError) : Bool :=
  let em := pyLower e.msg
  pyIn "ssl" em || pyIn "certificate" em || pyIn "certificate_verify_failed" em

/-- The retryable-connection branch test: `"connection" / "timeout" /
"network" / "connect"` in the lower-cased message, or `"ConnectError"` in
the exception type name. -/
def conn_match (e : PyError) : Bool :=
  let em := pyLower e.msg
  pyIn "connection" em || pyIn "timeout" em || pyIn "network" em || pyIn "connect" em ||
    pyIn "ConnectError" e.typeName

/-- The authentication branch test. -/
def auth_match (e : PyError) : Bool :=
  let em := pyLower e.msg
  pyIn "api key" em || pyIn "authentication" em || pyIn "unauthorized" em

/-- The rate-limit/quota branch test. -/
def quota_match (e : PyError) : Bool :=
  let em := pyLower e.msg
  pyIn "rate limit" em || pyIn "quota" em

/-- Message raised by the SSL-certificate branch (with remediation hint). -/
def ssl_error_message (e : PyError) : String :=
  "SSL Certificate verification failed. This usually happens when behind a corporate proxy/VPN.\n\n" ++
  "To fix this, add to your .env file:\n" ++
  "  SSL_VERIFY=false\n\n" ++
  "⚠️  WARNING: Disabling SSL verification reduces security. Only use if necessary.\n\n" ++
  "Original error: " ++ e.msg

/-- Message raised after the final failed connection attempt
(`max_retries = 3`). -/
def connection_failed_message (e : PyError) : String :=
  "Failed to connect to OpenAI API after 3 attempts.\n" ++
  "Possible causes:\n" ++
  "  • Internet connection issue\n" ++
  "  • Firewall or proxy blocking the connection\n" ++
  "  • OpenAI API service is temporarily unavailable\n" ++
  "  • Network timeout (try increasing timeout in .env)\n\n" ++
  "Original error: " ++ e.msg ++ "\n\n" ++
  "Troubleshooting:\n" ++
  "  1. Check your internet connection\n" ++
  "  2. Try running: python test_connection.py\n" ++
  "  3. Check OpenAI status: https://status.openai.com\n" ++
  "  4. If behind a proxy, set OPENAI_BASE_URL in .env"

/-- Message raised by the authentication branch. -/
def auth_error_message (e : PyError) : String :=
  "Invalid OpenAI API key. Please check your .env file and ensure OPENAI_API_KEY is set correctly. Error: " ++
    e.msg

/-- Message raised by the rate-limit/quota branch. -/
def quota_error_message (e : PyError) : String :=
  "OpenAI API rate limit or quota exceeded. Please wait and try again later. Error: " ++ e.msg

/-- Message raised by the catch-all branch. -/
def other_error_message (e : PyError) : String :=
  "Error calling OpenAI API: " ++ e.msg

/-- The retry loop of `BaseAgent.call_llm`. The backend is a function from
attempt index to outcome; the first returned component is the list of
`time.sleep` delays performed. Arguments mirror the loop state:
remaining iterations, `attempt`, `retry_delay`, accumulated sleeps. -/
def call_llm_go (backend : Nat → Except PyError String) :
    Nat → Nat → Nat → List Nat → List Nat × Except LlmError String
  | 0, _, _, sleeps => (sleeps, .error (.exhausted "Failed to call LLM after retries"))
  | remaining + 1, attempt, retry_delay, sleeps =>
    match backend attempt with
    | .ok r => (sleeps, .ok r)
    | .error e =>
      if ssl_match e then (sleeps, .error (.sslError (ssl_error_message e)))
      else if conn_match e then
        if attempt < 3 - 1 then
          call_llm_go backend remaining (attempt + 1) (retry_delay * 2) (sleeps ++ [retry_delay])
        else (sleeps, .error (.connectionFailed (connection_failed_message e)))
      else if auth_match e then (sleeps, .error (.authError (auth_error_message e)))
      else if quota_match e then (sleeps, .error (.quotaError (quota_error_message e)))
      else (sleeps, .error (.otherError (other_error_message e)))

/-- `BaseAgent.call_llm`: `max_retries = 3`, initial `retry_delay = 2`. -/
def call_llm (backend : Nat → Except PyError String) : List Nat × Except LlmError String :=
  call_llm_go backend 3 0 2 []

/-! ## Ordered-dict helpers (Python `dict` with insertion order) -/

/-- Python `key in d`. -/
def dict_contains {α : Type} (d : List (String × α)) (k : String) : Bool :=
  d.any (fun p => p.1 == k)

/-- Python `d[key] = v`: overwrite in place if the key exists (keeping its
position), else append. -/
def dict_set {α : Type} (d : List (String × α)) (k : String) (v : α) : List (String × α) :=
  if dict_contains d k then d.map (fun p => if p.1 == k then (k, v) else p)
  else d ++ [(k, v)]

/-- Python `d.get(key)` / `d[key]`. -/
def dict_get? {α : Type} (d : List (String × α)) (k : String) : Option α :=
  (d.find? (fun p => p.1 == k)).map (fun p => p.2)

/-! ## agents/editor.py

The four LLM passes (`_improve_flow`, `_improve_clarity`, the LLM part of
`_remove_repetitions`, `_apply_style_guide`) wrap a single `call_llm` on a
built prompt; each is abstracted as a function parameter, quantified over
in every theorem, so the theorems hold for every possible backend. The
pure parts (header de-duplication, the empty-style-guide guard, combining
and re-splitting sections) are embedded from the source. -/

/-- `EditorAgent._combine_content`. -/
def combine_content (content : List (String × String)) : String :=
  String.intercalate "\n\n" (content.map (fun p => "## " ++ p.1 ++ "\n\n" ++ p.2))

/-- The manual duplicate-`## `-header removal at the start of
`EditorAgent._remove_repetitions` (`seen` accumulates stripped headers). -/
def dedup_headers_go : List String → List String → List String
  | [], _ => []
  | line :: rest, seen =>
    if pyStartsWith "## " line then
      let header_text := pyStrip line
      if seen.contains header_text then dedup_headers_go rest seen
      else line :: dedup_headers_go rest (header_text :: seen)
    else line :: dedup_headers_go rest seen

/-- `EditorAgent._remove_repetitions`: manual header de-duplication, then
one LLM pass (abstracted as `llmPass`). -/
def remove_repetitions (llmPass : String → String) (content : String) : String :=
  llmPass (String.intercalate "\n" (dedup_headers_go (pySplitOn content "\n") []))

/-- `EditorAgent._apply_style_guide`: identity when the style guide is
empty, else one LLM pass. -/
def apply_style_guide (llmPass : String → List (String × String) → String → String)
    (content : String) (style_guide : List (String × String)) (tone : String) : String :=
  if style_guide.isEmpty then content else llmPass content style_guide tone

/-- Flush the current section in `_split_into_sections`: Python only
stores it under `if current_section:`, so a `None` or empty title is
discarded together with its content. -/
def split_sections_flush (sections : List (String × String)) (curSec : Option String)
    (curContent : List String) : List (String × String) :=
  match curSec with
  | some t =>
    if t == "" then sections
    else dict_set sections t (pyStrip (String.intercalate "\n" curContent))
  | none => sections

/-- The line loop of `EditorAgent._split_into_sections`. -/
def split_sections_go : List String → Option String → List String →
    List (String × String) → List (String × String)
  | [], curSec, curContent, sections => split_sections_flush sections curSec curContent
  | line :: rest, curSec, curContent, sections =>
    if pyStartsWith "## " line then
      split_sections_go rest (some (pyStrip (String.mk (line.toList.drop 3)))) []
        (split_sections_flush sections curSec curContent)
    else split_sections_go rest curSec (curContent ++ [line]) sections

/-- The `for title in original_section_titles` pass of
`_split_into_sections`: any original title that is missing or has a
blank body is set to `None` (the transient regeneration marker). -/
def ensure_titles (sections : List (String × String)) (titles : List String) :
    List (String × Option String) :=
  titles.foldl (fun acc t =>
    match dict_get? acc t with
    | some (some v) => if pyStrip v == "" then dict_set acc t none else acc
    | some none => dict_set acc t none
    | none => dict_set acc t none)
    (sections.map (fun p => (p.1, some p.2)))

/-- The final comprehension of `_split_into_sections`: drop `None` markers
and blank bodies. -/
def drop_missing (d : List (String × Option String)) : List (String × String) :=
  d.filterMap (fun p =>
    match p.2 with
    | some v => if pyStrip v == "" then none else some (p.1, v)
    | none => none)

/-- `EditorAgent._split_into_sections`. -/
def split_into_sections (full_article : String) (original_section_titles : List String) :
    List (String × String) :=
  drop_missing
    (ensure_titles (split_sections_go (pySplitOn full_article "\n") none [] [])
      original_section_titles)

/-- The dictionary `EditorAgent.process` returns. -/
structure EditorResult where
  status : String
  edited_content : List (String × String)
  improvements : List String
  word_count : Nat
deriving DecidableEq

/-- `EditorAgent.process`: combine all sections, run the four whole-article
passes, re-split on `## ` headers, and report success. -/
def editor_process (improve_flow : String → String → String → String)
    (improve_clarity : String → String → String)
    (dedup_llm : String → String)
    (style_llm : String → List (String × String) → String → String)
    (content : List (String × String)) (tone reading_level : String)
    (style_guide : List (String × String)) : EditorResult :=
  let full_article := combine_content content
  let flow_improved := improve_flow full_article tone reading_level
  let improvements :=
    if flow_improved ≠ full_article then
      ["Improved overall flow and transitions between sections"] else []
  let clarity_improved := improve_clarity flow_improved reading_level
  let improvements := improvements ++
    (if clarity_improved ≠ flow_improved then ["Enhanced clarity and readability"] else [])
  let deduplicated := remove_repetitions dedup_llm clarity_improved
  let improvements := improvements ++
    (if deduplicated ≠ clarity_improved then ["Removed repetitive phrases and ideas"] else [])
  let style_edited := apply_style_guide style_llm deduplicated style_guide tone
  let improvements := improvements ++
    (if style_edited ≠ deduplicated then ["Applied style guide requirements"] else [])
  let edited_content := split_into_sections style_edited (content.map Prod.fst)
  { status := "success"
    edited_content := edited_content
    improvements := improvements
    word_count := (edited_content.map (fun p => (pySplitWs p.2).length)).sum }

/-! ## agents/writer.py — pure image helpers -/

/-- The keyword allow-list of `WriterAgent._section_needs_image`. -/
def image_keywords : List String :=
  ["architecture", "diagram", "flowchart", "process", "workflow",
   "comparison", "before and after", "versus", "vs", "difference",
   "structure", "components", "system", "pipeline", "flow",
   "configuration", "setup", "installation", "steps",
   "mistake", "error", "problem", "solution", "fix",
   "example", "screenshot", "visual", "illustration"]

/-- The generic technical indicators of `_section_needs_image`. -/
def sni_technical_indicators : List String :=
  ["system", "cluster", "migration", "cost", "customization", "implementation",
   "deployment", "integration", "infrastructure", "platform", "service", "api",
   "database", "network", "cloud"]

/-- `WriterAgent._section_needs_image` (`topic` is accepted but unused, as
in the source). -/
def section_needs_image (section_title section_content topic : String) : Bool :=
  let title_lower := pyLower section_title
  let content_lower := pyLower section_content
  if image_keywords.any (fun k => pyIn k title_lower) then true
  else if image_keywords.any (fun k => pyIn k content_lower) &&
      decide ((pySplitWs section_content).length > 100) then true
  else if sni_technical_indicators.any (fun i =>
        pyIn i title_lower || pyIn i (String.mk (content_lower.toList.take 200))) &&
      decide ((pySplitWs section_content).length > 150) then true
  else decide ((pySplitWs section_content).length > 200)

/-- Python `list.insert(pos, x)` (clamps when `pos` exceeds the length). -/
def py_list_insert {α : Type} (l : List α) (pos : Nat) (x : α) : List α :=
  l.take pos ++ [x] ++ l.drop pos

/-- The sentence-counting scan of `_insert_image_in_section`: first line
index (plus one) at which the running count of `.`/`!`/`?` on
non-header, non-blank lines reaches 3. -/
def sentence_scan : List String → Nat → Nat → Option Nat
  | [], _, _ => none
  | line :: rest, i, cnt =>
    if !(pyStrip line == "") && !pyStartsWith "#" line then
      let c := cnt + line.toList.count '.' + line.toList.count '!' + line.toList.count '?'
      if c ≥ 3 then some (i + 1) else sentence_scan rest (i + 1) c
    else sentence_scan rest (i + 1) cnt

/-- `WriterAgent._insert_image_in_section`: insert after the first `### `
header, else after the first ≥3-sentence paragraph, else after the first
non-blank non-header line, else at the top. -/
def insert_image_in_section (content image_markdown : String) : String :=
  let lines := pySplitOn content "\n"
  let insert_position :=
    match lines.findIdx? (fun l => pyStartsWith "### " l) with
    | some i => i + 1
    | none => 0
  let insert_position :=
    if insert_position == 0 then (sentence_scan lines 0 0).getD 0 else insert_position
  let insert_position :=
    if insert_position == 0 then
      match lines.findIdx? (fun l => !(pyStrip l == "") && !pyStartsWith "#" l) with
      | some i => i + 1
      | none => 0
    else insert_position
  String.intercalate "\n" (py_list_insert lines insert_position image_markdown)

/-- The body of the `for section_title in image_candidates[:3]` loop of
`WriterAgent._add_images_to_content`: state is (enhanced_content,
images_added). -/
def add_images_step (genImage : String → String → String → String) (topic : String)
    (st : List (String × String) × Nat) (t : String) : List (String × String) × Nat :=
  if dict_contains st.1 t then
    let section_content := (dict_get? st.1 t).getD ""
    let image_markdown := genImage t topic section_content
    (dict_set st.1 t (insert_image_in_section section_content image_markdown), st.2 + 1)
  else st

/-- `WriterAgent._add_images_to_content`. `genImage` abstracts the
LLM-driven `_generate_image_url(section_title, topic, None,
section_content)`. Only existing keys are ever written. -/
def add_images_to_content (genImage : String → String → String → String)
    (content : List (String × String)) (topic : String)
    (outline : List OutlineSection) : List (String × String) :=
  let image_candidates := (content.filter (fun p =>
      !(p.1 == "Introduction" || p.1 == "Conclusion") &&
      section_needs_image p.1 p.2 topic)).map (fun p => p.1)
  let image_candidates :=
    if image_candidates.isEmpty && !outline.isEmpty then
      match outline.find? (fun s =>
          dict_contains content s.section_title &&
          !(s.section_title == "Introduction" || s.section_title == "Conclusion")) with
      | some s => [s.section_title]
      | none => []
    else image_candidates
  let st := (image_candidates.take 3).foldl (add_images_step genImage topic) (content, 0)
  let enhanced_content := st.1
  if st.2 == 0 && !content.isEmpty then
    match content.find? (fun p => !(p.1 == "Introduction" || p.1 == "Conclusion")) with
    | some p =>
      let image_markdown := genImage p.1 topic p.2
      dict_set enhanced_content p.1
        (insert_image_in_section ((dict_get? enhanced_content p.1).getD "") image_markdown)
    | none => enhanced_content
  else enhanced_content

/-! ## blog_generator.py — post-Edit image check -/

/-- The post-Edit check in `BlogGenerator.generate`: does any section
contain a markdown image or an image-needed marker? -/
def has_images (edited_content : List (String × String)) : Bool :=
  edited_content.any (fun p => pyIn "![" p.2 || pyIn "Image needed:" p.2)

/-- The post-Edit restore step of `BlogGenerator.generate`: when no image
survived editing, re-run `_add_images_to_content` on the edited content;
otherwise the edited content proceeds unchanged. -/
def post_edit_image_restore (genImage : String → String → String → String)
    (topic : String) (outline : List OutlineSection)
    (edited_content : List (String × String)) : List (String × String) :=
  if !has_images edited_content then
    add_images_to_content genImage edited_content topic outline
  else edited_content

/-! ## agents/writer.py — image selection across citations -/

/-- A candidate image dict as built by `_fetch_images_from_webpage` and
enriched with `relevance` (the LLM or keyword score) and `source`.
Float scores are modelled as rationals. -/
structure ImageCandidate where
  url : String
  alt : String
  quick_score : ℚ
  width : Option String
  height : Option String
  relevance : ℚ
  source : String
deriving DecidableEq

/-- The selection logic of `WriterAgent._extract_image_from_citations`
after all candidate images have been collected from the fetched pages:
sort by relevance descending (Python's stable `list.sort` with
`reverse=True` is modelled by a stable insertion sort on the same
preorder), keep only candidates with relevance ≥ 5.0, and return the best
survivor's URL — or `None` when the collection is empty or nothing clears
the threshold. -/
def select_best_image (all_candidate_images : List ImageCandidate) : Option String :=
  if all_candidate_images.isEmpty then none
  else
    let sorted :=
      List.insertionSort (fun a b => b.relevance ≤ a.relevance) all_candidate_images
    let relevant_images := sorted.filter (fun img => decide ((5 : ℚ) ≤ img.relevance))
    match relevant_images with
    | [] => none
    | best :: _ => some best.url

/-! ## blog_generator.py — configuration resolution and stage sequencing -/

/-- The six system-governed keys re-read from the database at the start of
every `BlogGenerator.generate` run. -/
def system_setting_keys : List String :=
  ["model_name", "temperature", "enable_web_search", "max_research_sources",
   "min_word_count", "max_word_count"]

/-- A configuration value (string / int / bool / float as stored in the
config dict; floats modelled as rationals). -/
inductive ConfigVal where
  | s (v : String)
  | i (v : Int)
  | b (v : Bool)
  | q (v : ℚ)
deriving DecidableEq

/-- The configuration merge of `BlogGenerator.generate` (source lines
123–147). Dicts are modelled by their `.get` function: `none` means
"absent or Python `None`", which this merge cannot distinguish (absent
keys are not iterated and `None` values are skipped by the
`if value is not None` guard). Steps: copy `self.config`; overwrite the
six system keys with the freshly-read DB settings; apply every non-`None`
caller override (note: including overrides for system keys); finally
re-apply any system setting whose effective value is `None`. -/
def resolve_config {α : Type} (self_config system_settings : String → Option α)
    (custom_config : Option (String → Option α)) : String → Option α :=
  let config := self_config
  let config := fun k => if k ∈ system_setting_keys then system_settings k else config k
  match custom_config with
  | none => config
  | some cc =>
    let config := fun k =>
      match cc k with
      | some v => some v
      | none => config k
    fun k =>
      if k ∈ system_setting_keys then
        match config k with
        | none => system_settings k
        | some v => some v
      else config k

/-- The observable behaviour of one agent `process` call: it either
returns a result dict (with its `status` and optional `message`) or
raises an exception with message `msg`. -/
inductive StageCall where
  | returns (status : String) (message : Option String)
  | raises (msg : String)
deriving DecidableEq

/-- The seven agent calls of one pipeline run, in source order. -/
structure PipelineCalls where
  planner : StageCall
  research : StageCall
  writer : StageCall
  editor : StageCall
  humanizer : StageCall
  seo : StageCall
  fact_check : StageCall
deriving DecidableEq

/-- The outcome of `BlogGenerator.generate`: an error dict with message
and step, an uncaught exception (for stages called outside
`_run_agent_step`), or the success dict. -/
inductive GenResult where
  | failure (message : String) (step : String)
  | raised (msg : String)
  | success
deriving DecidableEq

/-- One run of `BlogGenerator.generate`, instrumented with the list of
agent `process` calls actually made (in order) and whether `_save_blog`
was reached. -/
structure GenRun where
  result : GenResult
  stages_run : List String
  saved : Bool
deriving DecidableEq

/-- `BlogGenerator._run_agent_step`: `some (message, step)` when the step
produced an error dict, `none` when it succeeded. A raised exception is
caught; its message is wrapped, with a special wrapper when it mentions a
connection. -/
def run_agent_step (step_name : String) (call : StageCall) : Option (String × String) :=
  match call with
  | .returns status message =>
    if status ≠ "success" then
      some (pyCapitalize step_name ++ " failed: " ++ message.getD "Unknown error", step_name)
    else none
  | .raises m =>
    if pyIn "Connection" m || pyIn "connection" m then
      some ("Connection error during " ++ step_name ++ ": " ++ m ++
        ". Please check your internet connection and OpenAI API key.", step_name)
    else some (pyCapitalize step_name ++ " failed: " ++ m, step_name)

/-- The control flow of `BlogGenerator.generate`: resolve the
configuration, then run planner (via `_run_agent_step`), research,
writer, editor, humanizer, seo (direct calls with fixed error messages),
and fact_check (via `_run_agent_step`); any error dict is returned
immediately, and `_save_blog` runs only after all seven stages succeed.
There is no word-count validation anywhere on this path. Exceptions from
the directly-called stages propagate out (`GenResult.raised`). -/
def generate {α : Type} (self_config system_settings : String → Option α)
    (custom_config : Option (String → Option α)) (calls : PipelineCalls) : GenRun :=
  let config := resolve_config self_config system_settings custom_config
  match run_agent_step "planner" calls.planner with
  | some (m, st) => { result := .failure m st, stages_run := ["planner"], saved := false }
  | none =>
    match calls.research with
    | .raises m =>
      { result := .raised m, stages_run := ["planner", "research"], saved := false }
    | .returns status _ =>
      if status ≠ "success" then
        { result := .failure "Research failed" "research",
          stages_run := ["planner", "research"], saved := false }
      else
        match calls.writer with
        | .raises m =>
          { result := .raised m, stages_run := ["planner", "research", "writer"],
            saved := false }
        | .returns status _ =>
          if status ≠ "success" then
            { result := .failure "Writing failed" "writer",
              stages_run := ["planner", "research", "writer"], saved := false }
          else
            match calls.editor with
            | .raises m =>
              { result := .raised m,
                stages_run := ["planner", "research", "writer", "editor"], saved := false }
            | .returns status _ =>
              if status ≠ "success" then
                { result := .failure "Editing failed" "editor",
                  stages_run := ["planner", "research", "writer", "editor"], saved := false }
              else
                match calls.humanizer with
                | .raises m =>
                  { result := .raised m,
                    stages_run := ["planner", "research", "writer", "editor", "humanizer"],
                    saved := false }
                | .returns status _ =>
                  if status ≠ "success" then
                    { result := .failure "Humanization failed" "humanizer",
                      stages_run := ["planner", "research", "writer", "editor", "humanizer"],
                      saved := false }
                  else
                    match calls.seo with
                    | .raises m =>
                      { result := .raised m,
                        stages_run :=
                          ["planner", "research", "writer", "editor", "humanizer", "seo"],
                        saved := false }
                    | .returns status _ =>
                      if status ≠ "success" then
                        { result := .failure "SEO optimization failed" "seo",
                          stages_run :=
                            ["planner", "research", "writer", "editor", "humanizer", "seo"],
                          saved := false }
                      else
                        match run_agent_step "fact_check" calls.fact_check with
                        | some (m, st) =>
                          { result := .failure m st,
                            stages_run := ["planner", "research", "writer", "editor",
                              "humanizer", "seo", "fact_check"],
                            saved := false }
                        | none =>
                          { result := .success,
                            stages_run := ["planner", "research", "writer", "editor",
                              "humanizer", "seo", "fact_check"],
                            saved := true }

/-- The seven stage names in pipeline order. -/
def stage_names : List String :=
  ["planner", "research", "writer", "editor", "humanizer", "seo", "fact_check"]

/-- The call a pipeline run makes at stage index `i`. -/
def get_call (calls : PipelineCalls) : Fin 7 → StageCall
  | ⟨0, _⟩ => calls.planner
  | ⟨1, _⟩ => calls.research
  | ⟨2, _⟩ => calls.writer
  | ⟨3, _⟩ => calls.editor
  | ⟨4, _⟩ => calls.humanizer
  | ⟨5, _⟩ => calls.seo
  | ⟨6, _⟩ => calls.fact_check

/-- The name of stage index `i`. -/
def stage_name : Fin 7 → String
  | ⟨0, _⟩ => "planner"
  | ⟨1, _⟩ => "research"
  | ⟨2, _⟩ => "writer"
  | ⟨3, _⟩ => "editor"
  | ⟨4, _⟩ => "humanizer"
  | ⟨5, _⟩ => "seo"
  | ⟨6, _⟩ => "fact_check"

/-- Whether an agent call counts as a success for the orchestrator
(`result.get("status") == "success"` and no exception). -/
def stage_ok (c : StageCall) : Bool :=
  match c with
  | .returns status _ => status == "success"
  | .raises _ => false

/-! ## admin.py — the only min/max word-count validation in the repository -/

/-- The guard in the admin settings panel: saving the word-count settings
is refused when `min >= max` (an error toast is shown instead); returns
whether the settings were saved. -/
def admin_save_word_counts (new_min_word_count new_max_word_count : Int) : Bool :=
  if new_min_word_count ≥ new_max_word_count then false else true

end BlogGene

open BlogGene

/-- C10: `sanitize_topic` always returns a string of at most `max_length`
characters, each of which is alphanumeric (per the `isalnum` predicate),
an underscore, or a hyphen — spaces are mapped to underscores and all
other characters are removed. -/
theorem sanitize_topic_safe (isalnum : Char → Bool) (topic : String) (max_length : Nat) :
    (sanitize_topic isalnum topic max_length).length ≤ max_length ∧
    (sanitize_topic isalnum topic max_length).toList.all
      (fun c => c == '_' || c == '-' || isalnum c) = true := by
  constructor
  · simp [sanitize_topic, String.length]
  · rw [List.all_eq_true]
    intro c hc
    simp only [sanitize_topic, String.toList] at hc
    have hc' := List.mem_of_mem_take hc
    rw [List.mem_map] at hc'
    obtain ⟨d, hd, hfd⟩ := hc'
    rw [List.mem_filter] at hd
    by_cases hsp : d = ' '
    · subst hsp
      simp at hfd
      subst hfd
      simp
    · have : ¬ (d == ' ') = true := by simpa using hsp
      rw [if_neg this] at hfd
      subst hfd
      rcases Bool.or_eq_true _ _ |>.mp hd.2 with h | h
      · rcases Bool.or_eq_true _ _ |>.mp h with h' | h'
        · rcases Bool.or_eq_true _ _ |>.mp h' with h'' | h''
          · simp [h'']
          · exact absurd (by simpa using h'') hsp
        · simp [h']
      · simp [h]

/-- C4: the verification score is 1 on an empty claim set, always lies in
[0,1], and equals (number of claims marked verified) / (total claims) on a
non-empty set. -/
theorem verification_score_correct :
    calculate_verification_score [] = 1 ∧
    ∀ cs : List (String × ClaimStatus),
      0 ≤ calculate_verification_score cs ∧
      calculate_verification_score cs ≤ 1 ∧
      (cs ≠ [] → calculate_verification_score cs =
        ((cs.filter (fun p => p.2.verified)).length : ℚ) / (cs.length : ℚ)) := by
  refine ⟨rfl, ?_⟩
  intro cs
  rcases eq_or_ne cs [] with h | h
  · subst h
    refine ⟨by norm_num [calculate_verification_score], by norm_num [calculate_verification_score], ?_⟩
    intro h'
    exact absurd rfl h'
  · have hne : ¬ cs.isEmpty := by
      simpa [List.isEmpty_iff] using h
    have hlen : 0 < cs.length := List.length_pos.mpr h
    have hval : calculate_verification_score cs =
        ((cs.filter (fun p => p.2.verified)).length : ℚ) / (cs.length : ℚ) := by
      simp [calculate_verification_score, hne, hlen]
    refine ⟨?_, ?_, fun _ => hval⟩
    · rw [hval]
      positivity
    · rw [hval]
      rw [div_le_one (by exact_mod_cast hlen)]
      exact_mod_cast List.length_filter_le _ cs

/-- Witness for C4 at a concrete non-empty status set: one of two claims
verified gives score 1/2. -/
theorem verification_score_correct_witness :
    calculate_verification_score
      [("a", ⟨true, [], false⟩), ("b", ⟨false, [], true⟩)] = (1 : ℚ) / 2 := by
  have h := (verification_score_correct.2
    [("a", ⟨true, [], false⟩), ("b", ⟨false, [], true⟩)]).2.2 (by decide)
  rw [h]
  norm_num

/-- C9: `_add_citations` is a pure append: it preserves the key set and
order exactly; if `require_citations` holds and at least one claim
anywhere is flagged `needs_citation`, the fixed note is appended to every
section body; otherwise every body is unchanged. -/
theorem add_citations_append_only (content : List (String × String))
    (citation_status : List (String × ClaimStatus)) (require_citations : Bool) :
    add_citations content citation_status require_citations =
      if citation_status.any (fun q => q.2.needs_citation) && require_citations then
        content.map (fun p => (p.1, p.2 ++ citation_note))
      else content := by
  have hfilter : ∀ cs : List (String × ClaimStatus),
      (cs.filter (fun q => q.2.needs_citation)).isEmpty
        = !cs.any (fun q => q.2.needs_citation) := by
    intro cs
    induction cs with
    | nil => rfl
    | cons a l ih =>
      cases h : a.2.needs_citation <;>
        simp [List.filter_cons, List.any_cons, h, ih]
  have hmap : ∀ (l : List (String × ClaimStatus)),
      ((l.map (fun q => q.1)).isEmpty) = l.isEmpty := by
    intro l
    cases l <;> rfl
  have hcond : (!((citation_status.filter (fun q => q.2.needs_citation)).map
      (fun q => q.1)).isEmpty) = citation_status.any (fun q => q.2.needs_citation) := by
    rw [hmap, hfilter, Bool.not_not]
  simp only [add_citations, hcond]
  cases hA : citation_status.any (fun q => q.2.needs_citation) <;>
    cases require_citations <;> simp

/-- Substring containment is preserved when text is appended on the right. -/
theorem pyIn_append_right (n h s : String) (hin : pyIn n h = true) :
    pyIn n (h ++ s) = true := by
  simp only [pyIn, List.any_eq_true] at hin ⊢
  obtain ⟨t, ht, hp⟩ := hin
  rw [List.mem_tails] at ht
  obtain ⟨u, hu⟩ := ht
  refine ⟨t ++ s.toList, ?_, ?_⟩
  · rw [List.mem_tails]
    refine ⟨u, ?_⟩
    have : String.toList (h ++ s) = h.toList ++ s.toList := by
      simp [String.toList, String.data_append]
    rw [this, ← List.append_assoc, hu]
  · rw [List.isPrefixOf_iff_prefix] at hp ⊢
    exact hp.trans (List.prefix_append t s.toList)

/-- C5: the Plan stage never fails on a JSON-decode error: its result
status is always `"success"`, and whenever the (possibly fence-unwrapped)
response does not parse as JSON the plan is the fixed hard-coded fallback,
whose outline has 5 ≥ 1 sections. -/
theorem planner_json_failure_fallback (jsonLoads : String → Option Plan)
    (topic audience tone response : String) :
    (planner_process_postLLM jsonLoads topic audience tone response).status = "success" ∧
    (jsonLoads (unwrap_code_fence response) = none →
      (planner_process_postLLM jsonLoads topic audience tone response).plan =
        create_fallback_plan topic audience tone ∧
      1 ≤ (planner_process_postLLM jsonLoads topic audience tone
        response).plan.outline.length) := by
  cases h : jsonLoads (unwrap_code_fence response) <;>
    simp [planner_process_postLLM, h, create_fallback_plan]

/-- Witness for C5: a backend response that parses on no input still yields
a success whose plan is the 5-section fallback. -/
theorem planner_json_failure_fallback_witness :
    (planner_process_postLLM (fun _ => none) "topic" "aud" "tone" "not json").plan =
      create_fallback_plan "topic" "aud" "tone" ∧
    1 ≤ (planner_process_postLLM (fun _ => none) "topic" "aud" "tone"
      "not json").plan.outline.length :=
  (planner_json_failure_fallback (fun _ => none) "topic" "aud" "tone" "not json").2 rfl

/-- C6: `call_llm` error classification. Connection-class errors are
retried with sleeps of 2s then 4s and, after the 3rd failed attempt, raise
the connection-failure error; SSL-certificate errors (whose message
carries the `SSL_VERIFY=false` remediation hint), authentication errors,
rate-limit/quota errors and all other errors are raised immediately on
the first attempt, without sleeping, each with its own constructor and
message template. -/
theorem call_llm_error_classification (backend : Nat → Except PyError String) :
    (∀ e0 e1 e2, backend 0 = .error e0 → backend 1 = .error e1 → backend 2 = .error e2 →
      ssl_match e0 = false → conn_match e0 = true →
      ssl_match e1 = false → conn_match e1 = true →
      ssl_match e2 = false → conn_match e2 = true →
      call_llm backend =
        ([2, 4], .error (.connectionFailed (connection_failed_message e2)))) ∧
    (∀ e0, backend 0 = .error e0 →
      (ssl_match e0 = true →
        call_llm backend = ([], .error (.sslError (ssl_error_message e0))) ∧
          pyIn "SSL_VERIFY=false" (ssl_error_message e0) = true) ∧
      (ssl_match e0 = false → conn_match e0 = false → auth_match e0 = true →
        call_llm backend = ([], .error (.authError (auth_error_message e0)))) ∧
      (ssl_match e0 = false → conn_match e0 = false → auth_match e0 = false →
        quota_match e0 = true →
        call_llm backend = ([], .error (.quotaError (quota_error_message e0)))) ∧
      (ssl_match e0 = false → conn_match e0 = false → auth_match e0 = false →
        quota_match e0 = false →
        call_llm backend = ([], .error (.otherError (other_error_message e0))))) := by
  constructor
  · intro e0 e1 e2 h0 h1 h2 s0 c0 s1 c1 s2 c2
    simp [call_llm, call_llm_go, h0, h1, h2, s0, c0, s1, c1, s2, c2]
  · intro e0 h0
    refine ⟨?_, ?_, ?_, ?_⟩
    · intro s0
      constructor
      · simp [call_llm, call_llm_go, h0, s0]
      · have : ssl_error_message e0 =
            ("SSL Certificate verification failed. This usually happens when behind a corporate proxy/VPN.\n\n" ++
            "To fix this, add to your .env file:\n" ++
            "  SSL_VERIFY=false\n\n" ++
            "⚠️  WARNING: Disabling SSL verification reduces security. Only use if necessary.\n\n" ++
            "Original error: ") ++ e0.msg := by
          simp [ssl_error_message]
        rw [this]
        apply pyIn_append_right
        decide
    · intro s0 c0 a0
      simp [call_llm, call_llm_go, h0, s0, c0, a0]
    · intro s0 c0 a0 q0
      simp [call_llm, call_llm_go, h0, s0, c0, a0, q0]
    · intro s0 c0 a0 q0
      simp [call_llm, call_llm_go, h0, s0, c0, a0, q0]

/-- Witness for C6: a backend failing every attempt with a
connection-reset error is retried with 2s/4s backoff and ends in the
connection-failure error; an auth error on the first attempt is raised
at once with no sleeps. -/
theorem call_llm_error_classification_witness :
    call_llm (fun _ => .error ⟨"connection reset by peer", "ConnectionResetError"⟩) =
      ([2, 4], .error (.connectionFailed
        (connection_failed_message ⟨"connection reset by peer", "ConnectionResetError"⟩))) ∧
    call_llm (fun _ => .error ⟨"authentication failed for key", "AuthenticationError"⟩) =
      ([], .error (.authError
        (auth_error_message ⟨"authentication failed for key", "AuthenticationError"⟩))) :=
  ⟨(call_llm_error_classification
      (fun _ => .error ⟨"connection reset by peer", "ConnectionResetError"⟩)).1
      _ _ _ rfl rfl rfl (by decide) (by decide) (by decide) (by decide) (by decide) (by decide),
   ((call_llm_error_classification
      (fun _ => .error ⟨"authentication failed for key", "AuthenticationError"⟩)).2
      _ rfl).2.1 (by decide) (by decide) (by decide)⟩

/-- `dict_contains` agrees with membership in the key list. -/
theorem dict_contains_iff {α : Type} (d : List (String × α)) (k : String) :
    dict_contains d k = true ↔ k ∈ d.map Prod.fst := by
  simp [dict_contains, List.any_eq_true, List.mem_map, beq_iff_eq]

/-- Overwriting an existing key leaves the ordered key list unchanged. -/
theorem dict_set_fst_of_contains {α : Type} (d : List (String × α)) (k : String) (v : α)
    (h : dict_contains d k = true) :
    (dict_set d k v).map Prod.fst = d.map Prod.fst := by
  simp only [dict_set, h, if_true, List.map_map]
  apply List.map_congr_left
  intro p hp
  by_cases hpk : (p.1 == k) = true
  · simp only [Function.comp_apply, hpk, if_true]
    exact (beq_iff_eq.mp hpk).symm
  · simp only [Function.comp_apply, Bool.not_eq_true] at *
    simp [hpk]

/-- One image-insertion step never changes the key list. -/
theorem add_images_step_fst (genImage : String → String → String → String)
    (topic : String) (st : List (String × String) × Nat) (t : String) :
    ((add_images_step genImage topic st t).1).map Prod.fst = st.1.map Prod.fst := by
  unfold add_images_step
  by_cases hc : dict_contains st.1 t = true
  · simp only [hc, if_true]
    exact dict_set_fst_of_contains _ _ _ hc
  · simp only [Bool.not_eq_true] at hc
    simp [hc]

/-- `_add_images_to_content` preserves the ordered key list: it only ever
rewrites existing sections. -/
theorem add_images_to_content_fst (genImage : String → String → String → String)
    (content : List (String × String)) (topic : String)
    (outline : List OutlineSection) :
    (add_images_to_content genImage content topic outline).map Prod.fst =
      content.map Prod.fst := by
  have hfold : ∀ (ts : List String) (acc : List (String × String) × Nat),
      acc.1.map Prod.fst = content.map Prod.fst →
      ((ts.foldl (add_images_step genImage topic) acc).1).map Prod.fst =
        content.map Prod.fst := by
    intro ts
    induction ts with
    | nil => intro acc h; exact h
    | cons t ts ih =>
      intro acc h
      rw [List.foldl_cons]
      exact ih _ ((add_images_step_fst genImage topic acc t).trans h)
  unfold add_images_to_content
  set cands :=
    (content.filter (fun p =>
      !(p.1 == "Introduction" || p.1 == "Conclusion") &&
      section_needs_image p.1 p.2 topic)).map (fun p => p.1) with hcands
  set cands2 :=
    if cands.isEmpty && !outline.isEmpty then
      match outline.find? (fun s =>
          dict_contains content s.section_title &&
          !(s.section_title == "Introduction" || s.section_title == "Conclusion")) with
      | some s => [s.section_title]
      | none => []
    else cands with hcands2
  have hkeys : ((cands2.take 3).foldl (add_images_step genImage topic) (content, 0)).1.map
      Prod.fst = content.map Prod.fst := hfold _ _ rfl
  by_cases hz :
      (((cands2.take 3).foldl (add_images_step genImage topic) (content, 0)).2 == 0
        && !content.isEmpty) = true
  · simp only [hz, if_true]
    rcases hfind : content.find?
        (fun p => !(p.1 == "Introduction" || p.1 == "Conclusion")) with _ | p
    · simp only [hfind]
      exact hkeys
    · simp only [hfind]
      have hp : p ∈ content := List.mem_of_find?_eq_some hfind
      have hpk : p.1 ∈ content.map Prod.fst := List.mem_map_of_mem Prod.fst hp
      have hc : dict_contains
          (((cands2.take 3).foldl (add_images_step genImage topic) (content, 0)).1) p.1
            = true := by
        rw [dict_contains_iff, hkeys]
        exact hpk
      exact (dict_set_fst_of_contains _ _ _ hc).trans hkeys
  · simp only [Bool.not_eq_true] at hz
    simp only [hz, if_false]
    exact hkeys

/-- Every body surviving `_split_into_sections` is non-blank: the final
comprehension drops `None` markers and blank bodies. -/
theorem drop_missing_nonblank (d : List (String × Option String))
    (p : String × String) (hp : p ∈ drop_missing d) : ¬(pyStrip p.2 == "") = true := by
  unfold drop_missing at hp
  rw [List.mem_filterMap] at hp
  obtain ⟨⟨k, ov⟩, hmem, hq⟩ := hp
  cases ov with
  | none => exact absurd hq (by simp)
  | some v =>
    dsimp only at hq
    by_cases hb : (pyStrip v == "") = true
    · rw [if_pos hb] at hq
      exact absurd hq (by simp)
    · rw [if_neg hb] at hq
      have hpv : p = (k, v) := (Option.some.inj hq).symm
      rw [hpv]
      exact hb

/-- C2 (counterexample): a two-section document fed through Edit, where
the backend's whole-article rewrite keeps only section "A" (with an image
intact), silently loses key "B": Edit still reports success, "B" is
absent from the output with no regeneration marker, and — because an
image survived — the orchestrator's only post-Edit repair (the image
restore) passes the shortened document through unchanged to the next
stage. -/
theorem edit_silent_key_loss_counterexample :
    (editor_process (fun _ _ _ => "## A\n\nbody ![x](u)") (fun c _ => c)
        (fun c => c) (fun c _ _ => c)
        [("A", "x"), ("B", "y")] "professional" "college" []).status = "success" ∧
    (editor_process (fun _ _ _ => "## A\n\nbody ![x](u)") (fun c _ => c)
        (fun c => c) (fun c _ _ => c)
        [("A", "x"), ("B", "y")] "professional" "college" []).edited_content =
      [("A", "body ![x](u)")] ∧
    dict_contains (editor_process (fun _ _ _ => "## A\n\nbody ![x](u)") (fun c _ => c)
        (fun c => c) (fun c _ _ => c)
        [("A", "x"), ("B", "y")] "professional" "college" []).edited_content "B" = false ∧
    has_images [("A", "body ![x](u)")] = true ∧
    post_edit_image_restore (fun t _ _ => t) "t" [] [("A", "body ![x](u)")] =
      [("A", "body ![x](u)")] := by
  decide

/-- C2 (amended): the Edit stage always reports success and every section
body it outputs is non-blank; original keys missing after the re-split
are dropped (the transient `None` regeneration marker is removed inside
`_split_into_sections` itself); and the orchestrator's post-Edit restore
step preserves the key list exactly — it re-inserts images, never missing
keys. -/
theorem edit_stage_amended :
    (∀ (improve_flow : String → String → String → String)
        (improve_clarity : String → String → String)
        (dedup_llm : String → String)
        (style_llm : String → List (String × String) → String → String)
        (content : List (String × String)) (tone reading_level : String)
        (style_guide : List (String × String)),
      (editor_process improve_flow improve_clarity dedup_llm style_llm
          content tone reading_level style_guide).status = "success" ∧
      ∀ p ∈ (editor_process improve_flow improve_clarity dedup_llm style_llm
          content tone reading_level style_guide).edited_content,
        ¬(pyStrip p.2 == "") = true) ∧
    (∀ (genImage : String → String → String → String) (topic : String)
        (outline : List OutlineSection) (edited_content : List (String × String)),
      (post_edit_image_restore genImage topic outline edited_content).map Prod.fst =
        edited_content.map Prod.fst) := by
  constructor
  · intro improve_flow improve_clarity dedup_llm style_llm content tone reading_level
      style_guide
    refine ⟨rfl, ?_⟩
    intro p hp
    exact drop_missing_nonblank _ p hp
  · intro genImage topic outline edited_content
    unfold post_edit_image_restore
    by_cases h : (!has_images edited_content) = true
    · simp only [h, if_true]
      exact add_images_to_content_fst genImage edited_content topic outline
    · simp only [Bool.not_eq_true] at h ⊢
      simp [h]

/-- Witness for C2 (amended) at a concrete run: identity editing passes on
a one-section document keep the section with its non-blank body, and the
restore step keeps the key list. -/
theorem edit_stage_amended_witness :
    ¬(pyStrip ("x" : String) == "") = true ∧
    (post_edit_image_restore (fun t _ _ => t) "t" [] [("A", "x")]).map Prod.fst =
      [("A", "x")].map Prod.fst :=
  ⟨(edit_stage_amended.1 (fun c _ _ => c) (fun c _ => c) (fun c => c) (fun c _ _ => c)
      [("A", "x")] "professional" "college" []).2 ("A", "x") (by decide),
   edit_stage_amended.2 (fun t _ _ => t) "t" [] [("A", "x")]⟩

/-- C7: the image ranking never returns a URL whose relevance score is
below 5.0 — it returns `none` exactly when every collected candidate
scores below 5.0, and otherwise returns the URL of a candidate that
clears the bar and has maximal relevance among all candidates. -/
theorem image_relevance_floor (cands : List ImageCandidate) :
    (select_best_image cands = none ↔ ∀ c ∈ cands, c.relevance < 5) ∧
    (∀ u, select_best_image cands = some u →
      ∃ c ∈ cands, c.url = u ∧ 5 ≤ c.relevance ∧
        ∀ d ∈ cands, d.relevance ≤ c.relevance) := by
  cases hemp : cands.isEmpty with
  | true =>
    have : cands = [] := List.isEmpty_iff.mp hemp
    subst this
    constructor
    · simp [select_best_image]
    · intro u hu
      simp [select_best_image] at hu
  | false =>
    haveI htot : IsTotal ImageCandidate (fun a b => b.relevance ≤ a.relevance) :=
      ⟨fun a b => le_total b.relevance a.relevance⟩
    haveI htrans : IsTrans ImageCandidate (fun a b => b.relevance ≤ a.relevance) :=
      ⟨fun a b c hab hbc => le_trans hbc hab⟩
    have hperm := List.perm_insertionSort
      (fun a b : ImageCandidate => b.relevance ≤ a.relevance) cands
    have hsorted := List.sorted_insertionSort
      (fun a b : ImageCandidate => b.relevance ≤ a.relevance) cands
    set S := List.insertionSort (fun a b : ImageCandidate => b.relevance ≤ a.relevance) cands
      with hSdef
    have hsel : select_best_image cands =
        match S.filter (fun img => decide ((5 : ℚ) ≤ img.relevance)) with
        | [] => none
        | best :: _ => some best.url := by
      simp only [select_best_image, hemp, Bool.false_eq_true, if_false, hSdef]
    cases hFc : S.filter (fun img => decide ((5 : ℚ) ≤ img.relevance)) with
    | nil =>
      rw [hFc] at hsel
      constructor
      · rw [hsel]
        constructor
        · intro _ c hc
          have hcS : c ∈ S := hperm.mem_iff.mpr hc
          have hnc := (List.filter_eq_nil_iff.mp hFc) c hcS
          simp only [decide_eq_true_eq] at hnc
          exact not_le.mp hnc
        · intro _
          rfl
      · intro u hu
        rw [hsel] at hu
        exact absurd hu (by simp)
    | cons best rest =>
      rw [hFc] at hsel
      have hbestF : best ∈ S.filter (fun img => decide ((5 : ℚ) ≤ img.relevance)) := by
        rw [hFc]
        exact List.mem_cons_self _ _
      have hbestS : best ∈ S := List.mem_of_mem_filter hbestF
      have hbest_cands : best ∈ cands := hperm.mem_iff.mp hbestS
      have hbest5 : (5 : ℚ) ≤ best.relevance := by
        have := List.of_mem_filter hbestF
        simpa using this
      have hmax : ∀ d ∈ cands, d.relevance ≤ best.relevance := by
        obtain ⟨l₁, l₂, hdecomp, hl₁, _, _⟩ := List.filter_eq_cons_iff.mp hFc
        intro d hd
        have hdS : d ∈ S := hperm.mem_iff.mpr hd
        rw [hdecomp, List.mem_append, List.mem_cons] at hdS
        rcases hdS with h1 | h2 | h3
        · have hn := hl₁ d h1
          simp only [decide_eq_true_eq] at hn
          exact (lt_of_lt_of_le (not_le.mp hn) hbest5).le
        · rw [h2]
        · have hps := hsorted
          rw [hdecomp] at hps
          have hp2 := (List.pairwise_append.mp hps).2.1
          exact (List.pairwise_cons.mp hp2).1 d h3
      constructor
      · rw [hsel]
        constructor
        · intro h
          exact absurd h (by simp)
        · intro hall
          exact absurd hbest5 (not_le.mpr (hall best hbest_cands))
      · intro u hu
        rw [hsel] at hu
        exact ⟨best, hbest_cands, Option.some.inj hu, hbest5, hmax⟩

/-- Witness for C7: among two candidates scoring 6 and 7, the URL of the
7-scoring one is selected, and it clears the 5.0 floor and is maximal. -/
theorem image_relevance_floor_witness :
    select_best_image
      [⟨"u1", "alt1", 2, none, none, 6, "s"⟩, ⟨"u2", "alt2", 3, none, none, 7, "s"⟩] =
        some "u2" ∧
    ∃ c ∈ [(⟨"u1", "alt1", 2, none, none, 6, "s"⟩ : ImageCandidate),
           ⟨"u2", "alt2", 3, none, none, 7, "s"⟩],
      c.url = "u2" ∧ 5 ≤ c.relevance ∧
        ∀ d ∈ [(⟨"u1", "alt1", 2, none, none, 6, "s"⟩ : ImageCandidate),
               ⟨"u2", "alt2", 3, none, none, 7, "s"⟩],
          d.relevance ≤ c.relevance :=
  ⟨by decide,
   (image_relevance_floor
      [⟨"u1", "alt1", 2, none, none, 6, "s"⟩, ⟨"u2", "alt2", 3, none, none, 7, "s"⟩]).2
      "u2" (by decide)⟩

/-- A call counts as a success for the orchestrator exactly when it
returned a dict with status `"success"`. -/
theorem stage_ok_iff (c : StageCall) :
    stage_ok c = true ↔ ∃ m, c = .returns "success" m := by
  cases c with
  | returns st m =>
    simp only [stage_ok, beq_iff_eq]
    constructor
    · intro h
      exact ⟨m, by rw [h]⟩
    · rintro ⟨m', hm⟩
      cases hm
      rfl
  | raises m =>
    constructor
    · intro h
      exact absurd h (by simp [stage_ok])
    · rintro ⟨m', hm⟩
      exact StageCall.noConfusion hm

/-- C1 (counterexample): with persisted settings `min_word_count = 1000`
and `max_word_count = 500` (so `min >= max`), a `generate` run is *not*
rejected: the planner is invoked (the first LLM-backed stage) and, with
every stage succeeding, the run completes and saves — no pre-flight
word-count validation exists on this path. -/
theorem generate_no_wordcount_rejection_counterexample :
    resolve_config (fun _ => (none : Option ConfigVal))
      (fun k => if k = "min_word_count" then some (.i 1000)
        else if k = "max_word_count" then some (.i 500) else none) none
      "min_word_count" = some (.i 1000) ∧
    resolve_config (fun _ => (none : Option ConfigVal))
      (fun k => if k = "min_word_count" then some (.i 1000)
        else if k = "max_word_count" then some (.i 500) else none) none
      "max_word_count" = some (.i 500) ∧
    (1000 : Int) ≥ 500 ∧
    generate (fun _ => (none : Option ConfigVal))
      (fun k => if k = "min_word_count" then some (.i 1000)
        else if k = "max_word_count" then some (.i 500) else none) none
      ⟨.returns "success" none, .returns "success" none, .returns "success" none,
       .returns "success" none, .returns "success" none, .returns "success" none,
       .returns "success" none⟩ =
      { result := .success, stages_run := stage_names, saved := true } := by
  refine ⟨?_, ?_, ?_, ?_⟩ <;> decide

/-- C1 (amended): `BlogGenerator.generate` performs no word-count
validation at all — every run, whatever the configuration, proceeds
straight to the planner stage; the only `min_word_count <
max_word_count` check in the repository is the admin settings panel,
which refuses to *save* settings with `min >= max`. -/
theorem generate_no_wordcount_validation_amended :
    (∀ (α : Type) (self_config system_settings : String → Option α)
        (custom_config : Option (String → Option α)) (calls : PipelineCalls),
      (generate self_config system_settings custom_config calls).stages_run.head? =
        some "planner") ∧
    (∀ new_min new_max : Int,
      admin_save_word_counts new_min new_max = true ↔ new_min < new_max) := by
  constructor
  · intro α self_config system_settings custom_config calls
    unfold generate
    dsimp only
    repeat' split
    all_goals rfl
  · intro new_min new_max
    unfold admin_save_word_counts
    by_cases h : new_min ≥ new_max
    · rw [if_pos h]
      constructor
      · intro hh
        exact absurd hh (by simp)
      · intro hh
        exact absurd hh (by omega)
    · rw [if_neg h]
      constructor
      · intro _
        omega
      · intro _
        rfl

/-- Witness for C1 (amended): a concrete all-success run starts with the
planner, and the admin guard accepts 500 < 1000. -/
theorem generate_no_wordcount_validation_amended_witness :
    (generate (fun _ => (none : Option ConfigVal)) (fun _ => none) none
      ⟨.returns "success" none, .returns "success" none, .returns "success" none,
       .returns "success" none, .returns "success" none, .returns "success" none,
       .returns "success" none⟩).stages_run.head? = some "planner" ∧
    (admin_save_word_counts 500 1000 = true ↔ (500 : Int) < 1000) :=
  ⟨generate_no_wordcount_validation_amended.1 ConfigVal (fun _ => none) (fun _ => none) none
      ⟨.returns "success" none, .returns "success" none, .returns "success" none,
       .returns "success" none, .returns "success" none, .returns "success" none,
       .returns "success" none⟩,
   generate_no_wordcount_validation_amended.2 500 1000⟩

/-- C3 (counterexample): a caller-supplied *non-None* override for the
system-governed key `model_name` is applied, overriding the persisted
value — caller overrides for system keys are not excluded. -/
theorem system_settings_override_counterexample :
    resolve_config (fun _ => (none : Option String))
      (fun k => if k = "model_name" then some "db-model" else none)
      (some (fun k => if k = "model_name" then some "custom-model" else none))
      "model_name" = some "custom-model" ∧
    ("custom-model" : String) ≠ "db-model" ∧
    "model_name" ∈ system_setting_keys := by
  refine ⟨?_, ?_, ?_⟩ <;> decide

/-- C3 (amended): in the configuration merge, a non-`None` caller override
wins for *every* key, system-governed ones included; but a caller passing
`None` (or omitting the key) can never null out a persisted system
setting — for system keys with no non-`None` override the persisted value
is used, with or without a custom config. -/
theorem config_resolution_amended {α : Type}
    (self_config system_settings cc : String → Option α) (k : String) :
    (∀ v, cc k = some v →
      resolve_config self_config system_settings (some cc) k = some v) ∧
    (cc k = none → k ∈ system_setting_keys →
      resolve_config self_config system_settings (some cc) k = system_settings k) ∧
    (k ∈ system_setting_keys →
      resolve_config self_config system_settings none k = system_settings k) := by
  refine ⟨?_, ?_, ?_⟩
  · intro v hv
    by_cases hk : k ∈ system_setting_keys <;>
      simp [resolve_config, hv, hk]
  · intro hv hk
    simp only [resolve_config, hv, hk, if_pos]
    cases system_settings k <;> simp
  · intro hk
    simp [resolve_config, hk]

/-- Witness for C3 (amended): with a persisted temperature and a custom
config that omits it, the persisted value survives; a non-None custom
model name wins. -/
theorem config_resolution_amended_witness :
    resolve_config (fun _ => (none : Option String))
      (fun k => if k = "model_name" then some "db-model" else none)
      (some (fun k => if k = "model_name" then some "custom-model" else none))
      "model_name" = some "custom-model" ∧
    resolve_config (fun _ => (none : Option String))
      (fun k => if k = "temperature" then some "0.7" else none)
      (some (fun _ => none)) "temperature" =
      (fun k => if k = "temperature" then some "0.7" else none) "temperature" :=
  ⟨(config_resolution_amended (fun _ => none)
      (fun k => if k = "model_name" then some "db-model" else none)
      (fun k => if k = "model_name" then some "custom-model" else none)
      "model_name").1 "custom-model" (by decide),
   (config_resolution_amended (fun _ => none)
      (fun k => if k = "temperature" then some "0.7" else none)
      (fun _ => none) "temperature").2.1 rfl (by decide)⟩

/-- C8 (counterexample): when the Research stage returns a failure whose
own message is "boom", the orchestrator halts with step "research" and
does not save — but its structured error message is the fixed phrase
"Research failed", which does not contain the underlying cause. -/
theorem stage_failure_cause_dropped_counterexample :
    generate (fun _ => (none : Option ConfigVal)) (fun _ => none) none
      ⟨.returns "success" none, .returns "error" (some "boom"), .returns "success" none,
       .returns "success" none, .returns "success" none, .returns "success" none,
       .returns "success" none⟩ =
      { result := .failure "Research failed" "research",
        stages_run := ["planner", "research"], saved := false } ∧
    pyIn "boom" "Research failed" = false := by
  refine ⟨?_, ?_⟩ <;> decide

/-- C8 (amended): whenever the first failing stage returns a non-success
result dict (all earlier stages succeeding), `generate` halts
immediately: no later stage runs, `_save_blog` is never reached, and the
returned error dict carries the failing stage's name; the error message
is the stage's fixed phrase (or, for the planner and fact-check stages
run via `_run_agent_step`, a wrapper containing the underlying cause). -/
theorem stage_failure_halts_amended {α : Type}
    (self_config system_settings : String → Option α)
    (custom_config : Option (String → Option α)) (calls : PipelineCalls) (k : Fin 7)
    (hearlier : ∀ j : Fin 7, j < k → stage_ok (get_call calls j) = true)
    (hfail : ∃ st msg, get_call calls k = .returns st msg ∧ st ≠ "success") :
    ∃ m, generate self_config system_settings custom_config calls =
      { result := .failure m (stage_name k),
        stages_run := stage_names.take (k.val + 1), saved := false } := by
  obtain ⟨st, msg, hcall, hst⟩ := hfail
  fin_cases k
  · simp only [get_call] at hcall
    refine ⟨pyCapitalize "planner" ++ " failed: " ++ msg.getD "Unknown error", ?_⟩
    simp [generate, run_agent_step, hcall, hst, stage_name, stage_names]
  · obtain ⟨m0, h0⟩ := (stage_ok_iff _).mp (hearlier ⟨0, by omega⟩ (by decide))
    simp only [get_call] at hcall h0
    refine ⟨"Research failed", ?_⟩
    simp [generate, run_agent_step, h0, hcall, hst, stage_name, stage_names]
  · obtain ⟨m0, h0⟩ := (stage_ok_iff _).mp (hearlier ⟨0, by omega⟩ (by decide))
    obtain ⟨m1, h1⟩ := (stage_ok_iff _).mp (hearlier ⟨1, by omega⟩ (by decide))
    simp only [get_call] at hcall h0 h1
    refine ⟨"Writing failed", ?_⟩
    simp [generate, run_agent_step, h0, h1, hcall, hst, stage_name, stage_names]
  · obtain ⟨m0, h0⟩ := (stage_ok_iff _).mp (hearlier ⟨0, by omega⟩ (by decide))
    obtain ⟨m1, h1⟩ := (stage_ok_iff _).mp (hearlier ⟨1, by omega⟩ (by decide))
    obtain ⟨m2, h2⟩ := (stage_ok_iff _).mp (hearlier ⟨2, by omega⟩ (by decide))
    simp only [get_call] at hcall h0 h1 h2
    refine ⟨"Editing failed", ?_⟩
    simp [generate, run_agent_step, h0, h1, h2, hcall, hst, stage_name, stage_names]
  · obtain ⟨m0, h0⟩ := (stage_ok_iff _).mp (hearlier ⟨0, by omega⟩ (by decide))
    obtain ⟨m1, h1⟩ := (stage_ok_iff _).mp (hearlier ⟨1, by omega⟩ (by decide))
    obtain ⟨m2, h2⟩ := (stage_ok_iff _).mp (hearlier ⟨2, by omega⟩ (by decide))
    obtain ⟨m3, h3⟩ := (stage_ok_iff _).mp (hearlier ⟨3, by omega⟩ (by decide))
    simp only [get_call] at hcall h0 h1 h2 h3
    refine ⟨"Humanization failed", ?_⟩
    simp [generate, run_agent_step, h0, h1, h2, h3, hcall, hst, stage_name, stage_names]
  · obtain ⟨m0, h0⟩ := (stage_ok_iff _).mp (hearlier ⟨0, by omega⟩ (by decide))
    obtain ⟨m1, h1⟩ := (stage_ok_iff _).mp (hearlier ⟨1, by omega⟩ (by decide))
    obtain ⟨m2, h2⟩ := (stage_ok_iff _).mp (hearlier ⟨2, by omega⟩ (by decide))
    obtain ⟨m3, h3⟩ := (stage_ok_iff _).mp (hearlier ⟨3, by omega⟩ (by decide))
    obtain ⟨m4, h4⟩ := (stage_ok_iff _).mp (hearlier ⟨4, by omega⟩ (by decide))
    simp only [get_call] at hcall h0 h1 h2 h3 h4
    refine ⟨"SEO optimization failed", ?_⟩
    simp [generate, run_agent_step, h0, h1, h2, h3, h4, hcall, hst, stage_name, stage_names]
  · obtain ⟨m0, h0⟩ := (stage_ok_iff _).mp (hearlier ⟨0, by omega⟩ (by decide))
    obtain ⟨m1, h1⟩ := (stage_ok_iff _).mp (hearlier ⟨1, by omega⟩ (by decide))
    obtain ⟨m2, h2⟩ := (stage_ok_iff _).mp (hearlier ⟨2, by omega⟩ (by decide))
    obtain ⟨m3, h3⟩ := (stage_ok_iff _).mp (hearlier ⟨3, by omega⟩ (by decide))
    obtain ⟨m4, h4⟩ := (stage_ok_iff _).mp (hearlier ⟨4, by omega⟩ (by decide))
    obtain ⟨m5, h5⟩ := (stage_ok_iff _).mp (hearlier ⟨5, by omega⟩ (by decide))
    simp only [get_call] at hcall h0 h1 h2 h3 h4 h5
    refine ⟨pyCapitalize "fact_check" ++ " failed: " ++ msg.getD "Unknown error", ?_⟩
    simp [generate, run_agent_step, h0, h1, h2, h3, h4, h5, hcall, hst, stage_name,
      stage_names]

/-- Witness for C8 (amended): research failing (with earlier planner
succeeding) halts the run at step "research" with nothing saved. -/
theorem stage_failure_halts_amended_witness :
    ∃ m, generate (fun _ => (none : Option ConfigVal)) (fun _ => none) none
        ⟨.returns "success" none, .returns "error" (some "boom"), .returns "success" none,
         .returns "success" none, .returns "success" none, .returns "success" none,
         .returns "success" none⟩ =
      { result := .failure m (stage_name ⟨1, by omega⟩),
        stages_run := stage_names.take 2, saved := false } :=
  stage_failure_halts_amended (fun _ => (none : Option ConfigVal)) (fun _ => none) none
    ⟨.returns "success" none, .returns "error" (some "boom"), .returns "success" none,
     .returns "success" none, .returns "success" none, .returns "success" none,
     .returns "success" none⟩ ⟨1, by omega⟩ (by decide)
    ⟨"error", some "boom", rfl, by decide⟩
